import Mathlib

/-!
Shallow embedding of the discount/promotion engine of the Café Stockholm
backend (promotion service module and coupon routes).

Conventions of the embedding:
* Monetary values and numeric database columns are modelled as rationals
  (the source computes in JS floating point and formats results with
  toFixed at the boundary; we model the exact arithmetic).
* Timestamps are integers; SQL NULL columns are Option.
* JS truthiness tests on row fields are modelled per column type: a
  nullable timestamp or numeric column arrives as an object or string and
  is truthy iff non-NULL (Option.isSome); a nullable integer column is
  falsy when NULL or 0.
* A database snapshot is threaded explicitly through every operation;
  SELECT statements return it unchanged, UPDATE and INSERT return a new
  snapshot.  Statements that may fail in the store take an explicit
  failure flag, mirroring the placement of try/catch in the source.
-/

namespace CafeStockholm

/-! ## Data model -/

/-- One cart line item as supplied by the cart/checkout caller. -/
structure CartItem where
  productId : Nat
  categoryId : Nat
  price : ℚ
  quantity : Nat
deriving DecidableEq, Repr

/-- The type-specific structured rules payload of a promotion row. -/
structure PromoRules where
  categoryId : Option Nat
  productId : Option Nat
  buyQuantity : Option Nat
  getQuantity : Option Nat
  minAmount : Option ℚ
deriving DecidableEq, Repr

/-- A row of the promotions table. -/
structure Promotion where
  id : Nat
  name : String
  type : String
  discount_type : String
  discount_value : ℚ
  rules : Option PromoRules
  priority : Int
  starts_at : Option Int
  ends_at : Option Int
  is_active : Bool
deriving DecidableEq, Repr

/-- A row of the coupons table. -/
structure Coupon where
  id : Nat
  code : String
  description : String
  discount_type : String
  discount_value : ℚ
  min_purchase_amount : Option ℚ
  max_discount_amount : Option ℚ
  usage_limit : Option Nat
  usage_count : Nat
  usage_limit_per_user : Option Nat
  valid_from : Option Int
  valid_to : Option Int
  is_active : Bool
deriving DecidableEq, Repr

/-- A row of the coupon_usage table. -/
structure CouponUsage where
  coupon_id : Nat
  user_id : Option Nat
  order_id : Nat
  discount_amount : ℚ
deriving DecidableEq, Repr

/-- A snapshot of the relational store seen by the engine. -/
structure DB where
  coupons : List Coupon
  coupon_usage : List CouponUsage
  promotions : List Promotion
deriving DecidableEq, Repr

/-! ## Promotion evaluator -/

/-- Cart subtotal: reduce summing price times quantity, seeded with 0. -/
def cartSubtotal (cartItems : List CartItem) : ℚ :=
  cartItems.foldl (fun sum item => sum + item.price * (item.quantity : ℚ)) 0

/-- The empty rules object substituted by the source for a NULL payload. -/
def emptyRules : PromoRules :=
  { categoryId := none, productId := none, buyQuantity := none, getQuantity := none,
    minAmount := none }

/-- JS or-default on a nullable integer rule field: NULL and 0 are falsy. -/
def jsOrNat (o : Option Nat) (d : Nat) : Nat :=
  match o with
  | none => d
  | some 0 => d
  | some n => n

/-- JS truthiness of a nullable integer id field: NULL and 0 are falsy. -/
def jsIdOf (o : Option Nat) : Option Nat :=
  match o with
  | none => none
  | some 0 => none
  | some n => some n

/-- Discount contributed by one promotion to a cart, by promotion type.
Unknown types, missing required rule fields and unmatched carts yield 0. -/
def calculatePromoDiscount (promo : Promotion) (cartItems : List CartItem) : ℚ :=
  let cartTotal := cartSubtotal cartItems
  match promo.type with
  | "category_discount" =>
    let rules := promo.rules.getD emptyRules
    match jsIdOf rules.categoryId with
    | none => 0
    | some categoryId =>
      let categoryTotal :=
        (cartItems.filter (fun item => item.categoryId == categoryId)).foldl
          (fun sum item => sum + item.price * (item.quantity : ℚ)) 0
      if promo.discount_type = "percentage" then
        categoryTotal * (promo.discount_value / 100)
      else if promo.discount_type = "fixed" then
        min promo.discount_value categoryTotal
      else 0
  | "buy_x_get_y" =>
    let rules := promo.rules.getD emptyRules
    let buyQuantity := jsOrNat rules.buyQuantity 2
    let getQuantity := jsOrNat rules.getQuantity 1
    match jsIdOf rules.productId with
    | none => 0
    | some productId =>
      match cartItems.find? (fun item => item.productId == productId) with
      | none => 0
      | some matchingItem =>
        let setsCount := matchingItem.quantity / buyQuantity
        let freeItems := setsCount * getQuantity
        matchingItem.price * (freeItems : ℚ)
  | "flash_sale" =>
    if promo.discount_type = "percentage" then
      cartTotal * (promo.discount_value / 100)
    else if promo.discount_type = "fixed" then
      min promo.discount_value cartTotal
    else 0
  | "min_purchase" =>
    let rules := promo.rules.getD emptyRules
    let minAmount := rules.minAmount.getD 0
    if cartTotal < minAmount then 0
    else if promo.discount_type = "percentage" then
      cartTotal * (promo.discount_value / 100)
    else if promo.discount_type = "fixed" then
      promo.discount_value
    else 0
  | _ => 0

/-- Entry of the appliedPromotions result list. -/
structure AppliedPromo where
  id : Nat
  name : String
  type : String
  discount : ℚ
deriving DecidableEq, Repr

/-- Result shape of the promotion evaluator. -/
structure PromoResult where
  totalDiscount : ℚ
  appliedPromotions : List AppliedPromo
deriving DecidableEq, Repr

/-- The applied-promotion descriptor pushed for one promotion. -/
def mkApplied (cartItems : List CartItem) (promo : Promotion) : AppliedPromo :=
  { id := promo.id, name := promo.name, type := promo.type,
    discount := calculatePromoDiscount promo cartItems }

/-- One iteration of the applyPromotions loop: a strictly positive
discount is added to the running total and its descriptor pushed. -/
def promoStep (cartItems : List CartItem) (acc : ℚ × List AppliedPromo)
    (promo : Promotion) : ℚ × List AppliedPromo :=
  let discount := calculatePromoDiscount promo cartItems
  if 0 < discount then (acc.1 + discount, acc.2 ++ [mkApplied cartItems promo])
  else acc

/-- The accumulation loop of applyPromotions over the fetched promotions:
promotions with a strictly positive discount are summed and reported. -/
def applyPromotionsCore (promotions : List Promotion) (cartItems : List CartItem) :
    PromoResult :=
  let folded := promotions.foldl (promoStep cartItems) ((0 : ℚ), ([] : List AppliedPromo))
  { totalDiscount := folded.1, appliedPromotions := folded.2 }

/-- applyPromotions with the try/catch of the source made explicit: the
fetch of active promotions may fail in the store, and any error reaching
the catch yields the fallback result of zero discount and no promotions. -/
def applyPromotions (fetched : Except String (List Promotion))
    (cartItems : List CartItem) : PromoResult :=
  match fetched with
  | .error _ => { totalDiscount := 0, appliedPromotions := [] }
  | .ok promotions => applyPromotionsCore promotions cartItems

/-- WHERE clause of the active-promotions query: is_active, started, not ended. -/
def isActiveAt (now : Int) (p : Promotion) : Bool :=
  p.is_active &&
    (match p.starts_at with | none => true | some t => t ≤ now) &&
    (match p.ends_at with | none => true | some t => now ≤ t)

/-- Insertion step of the ORDER BY priority DESC sort. -/
def insertByPriority (p : Promotion) : List Promotion → List Promotion
  | [] => [p]
  | q :: qs => if q.priority < p.priority then p :: q :: qs else q :: insertByPriority p qs

/-- ORDER BY priority DESC over a list of rows. -/
def sortByPriorityDesc (l : List Promotion) : List Promotion :=
  l.foldr insertByPriority []

/-- Rows returned by the active-promotions query against a snapshot. -/
def activePromotions (db : DB) (now : Int) : List Promotion :=
  sortByPriorityDesc (db.promotions.filter (isActiveAt now))

/-- applyPromotions run against a snapshot on the success path of the
fetch; the snapshot is returned unchanged since the evaluator only reads. -/
def applyPromotionsRun (db : DB) (now : Int) (cartItems : List CartItem) :
    PromoResult × DB :=
  (applyPromotions (.ok (activePromotions db now)) cartItems, db)

/-! ## Coupon validator -/

/-- Error taxonomy of the validator, in the order the checks run. -/
inductive CouponError where
  | NotFound
  | NotYetActive
  | Expired
  | Exhausted
  | BelowMinimum
  | PerUserLimitReached
deriving DecidableEq, Repr

/-- Success payload of the validator. -/
structure ValidationOk where
  couponId : Nat
  code : String
  description : String
  discountType : String
  discountValue : ℚ
  discountAmount : ℚ
  freeShipping : Bool
deriving DecidableEq, Repr

/-- First temporal check: valid_from set and strictly in the future. -/
def notYetActiveB (c : Coupon) (now : Int) : Bool :=
  match c.valid_from with
  | none => false
  | some t => now < t

/-- Second temporal check: valid_to set and strictly in the past. -/
def expiredB (c : Coupon) (now : Int) : Bool :=
  match c.valid_to with
  | none => false
  | some t => t < now

/-- Global exhaustion check: usage_limit truthy and usage_count at the limit. -/
def exhaustedB (c : Coupon) : Bool :=
  match c.usage_limit with
  | none => false
  | some l => l != 0 && l ≤ c.usage_count

/-- Minimum purchase check: min_purchase_amount non-NULL and cart below it. -/
def belowMinB (c : Coupon) (cartTotal : ℚ) : Bool :=
  match c.min_purchase_amount with
  | none => false
  | some m => cartTotal < m

/-- COUNT(*) of coupon_usage rows for one coupon and one user. -/
def countUserUsage (db : DB) (couponId : Nat) (userId : Nat) : Nat :=
  (db.coupon_usage.filter
    (fun u => u.coupon_id == couponId && u.user_id == some userId)).length

/-- Per-user check: runs only with a userId present and a truthy limit. -/
def perUserExceededB (db : DB) (c : Coupon) (userId : Option Nat) : Bool :=
  match userId, c.usage_limit_per_user with
  | some u, some lim => lim != 0 && lim ≤ countUserUsage db c.id u
  | _, _ => false

/-- Discount amount computed by the validator once all checks pass:
percentage is clamped to a non-NULL max_discount_amount, fixed_amount is
capped at the cart total, and any other type keeps the initial 0. -/
def couponDiscountAmount (c : Coupon) (cartTotal : ℚ) : ℚ :=
  if c.discount_type = "percentage" then
    let raw := cartTotal * (c.discount_value / 100)
    match c.max_discount_amount with
    | none => raw
    | some m => min raw m
  else if c.discount_type = "fixed_amount" then
    min c.discount_value cartTotal
  else 0

/-- The validator checks on a found active coupon, in source order, ending
with the discount computation.  The snapshot is consulted only by the
per-user usage count. -/
def validateFound (db : DB) (c : Coupon) (now : Int) (userId : Option Nat)
    (cartTotal : ℚ) : Except CouponError ValidationOk :=
  if notYetActiveB c now then .error .NotYetActive
  else if expiredB c now then .error .Expired
  else if exhaustedB c then .error .Exhausted
  else if belowMinB c cartTotal then .error .BelowMinimum
  else if perUserExceededB db c userId then .error .PerUserLimitReached
  else .ok
    { couponId := c.id, code := c.code, description := c.description,
      discountType := c.discount_type, discountValue := c.discount_value,
      discountAmount := couponDiscountAmount c cartTotal,
      freeShipping := c.discount_type = "free_shipping" }

/-- Coupon lookup: case-insensitive code match restricted to active rows,
taking the first returned row. -/
def findCoupon (db : DB) (code : String) : Option Coupon :=
  (db.coupons.filter (fun c => c.code.toUpper == code.toUpper && c.is_active)).head?

/-- Full validator: lookup then checks; every statement it issues is a
SELECT, so the snapshot comes back unchanged. -/
def validateCoupon (db : DB) (now : Int) (code : String) (userId : Option Nat)
    (cartTotal : ℚ) : Except CouponError ValidationOk × DB :=
  match findCoupon db code with
  | none => (.error .NotFound, db)
  | some c => (validateFound db c now userId cartTotal, db)

/-! ## Usage recorder -/

/-- Row transformer of the UPDATE statement: bump usage_count when the id matches. -/
def bumpUsageRow (couponId : Nat) (c : Coupon) : Coupon :=
  if c.id == couponId then { c with usage_count := c.usage_count + 1 } else c

/-- Effect of the UPDATE statement: bump usage_count of the coupon row. -/
def incrementUsageCount (db : DB) (couponId : Nat) : DB :=
  { db with coupons := db.coupons.map (bumpUsageRow couponId) }

/-- Effect of the INSERT statement: append one coupon_usage row. -/
def insertCouponUsage (db : DB) (row : CouponUsage) : DB :=
  { db with coupon_usage := db.coupon_usage ++ [row] }

/-- recordCouponUsage: two separate autocommit statements with no
surrounding transaction.  Each statement may fail in the store (failure
flags); the catch rethrows, so an error after the first statement leaves
its effect in place. -/
def recordCouponUsage (db : DB) (failUpdate failInsert : Bool) (couponId : Nat)
    (userId : Option Nat) (orderId : Nat) (discountAmount : ℚ) :
    Except String Unit × DB :=
  if failUpdate then (.error "update failed", db)
  else
    let db1 := incrementUsageCount db couponId
    if failInsert then (.error "insert failed", db1)
    else (.ok (), insertCouponUsage db1
      { coupon_id := couponId, user_id := userId, order_id := orderId,
        discount_amount := discountAmount })

/-! ## Reference computation from the specification -/

/-- Modelled from the spec words for the coupon discount rule: percentage
is cart total times value over 100 clamped to the cap when set,
fixed_amount is the value capped at the cart total, free_shipping is 0. -/
def specDiscountAmount (c : Coupon) (cartTotal : ℚ) : ℚ :=
  if c.discount_type = "percentage" then
    match c.max_discount_amount with
    | none => cartTotal * (c.discount_value / 100)
    | some m => min (cartTotal * (c.discount_value / 100)) m
  else if c.discount_type = "fixed_amount" then
    min c.discount_value cartTotal
  else 0

/-! ## Concrete fixtures used by witnesses and counterexamples -/

/-- An empty store snapshot. -/
def sampleDbEmpty : DB := { coupons := [], coupon_usage := [], promotions := [] }

/-- A ten percent coupon with no limits and no validity window. -/
def sampleCouponBase : Coupon :=
  { id := 1, code := "SAVE10", description := "", discount_type := "percentage",
    discount_value := 10, min_purchase_amount := none, max_discount_amount := none,
    usage_limit := none, usage_count := 0, usage_limit_per_user := none,
    valid_from := none, valid_to := none, is_active := true }

/-- The validator payload produced for sampleCouponBase on a cart of 100. -/
def sampleResult : ValidationOk :=
  { couponId := 1, code := "SAVE10", description := "", discountType := "percentage",
    discountValue := 10, discountAmount := 10, freeShipping := false }

/-- A coupon already past its valid_to but still before its valid_from. -/
def sampleCouponC6 : Coupon :=
  { sampleCouponBase with valid_from := some 10, valid_to := some 1 }

/-- An expired coupon whose usage_count has reached its usage_limit. -/
def sampleCouponC7 : Coupon :=
  { sampleCouponBase with valid_to := some 0, usage_limit := some 2, usage_count := 2 }

/-- An expired coupon with a per-user limit of one. -/
def sampleCouponC8 : Coupon :=
  { sampleCouponBase with valid_to := some 0, usage_limit_per_user := some 1 }

/-- A coupon expired at time 3 and otherwise unconstrained. -/
def sampleCouponExp : Coupon := { sampleCouponBase with valid_to := some 3 }

/-- A temporally unconstrained coupon at its global usage limit. -/
def sampleCouponExh : Coupon :=
  { sampleCouponBase with usage_limit := some 2, usage_count := 2 }

/-- A temporally unconstrained coupon with a per-user limit of one. -/
def sampleCouponPU : Coupon :=
  { sampleCouponBase with usage_limit_per_user := some 1 }

/-- A snapshot holding one usage row of coupon 1 by user 42. -/
def sampleUsageDb : DB :=
  { coupons := [],
    coupon_usage := [⟨1, some 42, 9, 5⟩],
    promotions := [] }

/-- A snapshot holding the base coupon and nothing else. -/
def sampleCouponDb : DB :=
  { coupons := [sampleCouponBase], coupon_usage := [], promotions := [] }

/-- A one-item cart: product 7 in category 3, price 100, quantity 1. -/
def sampleCart : List CartItem :=
  [{ productId := 7, categoryId := 3, price := 100, quantity := 1 }]

/-- An active ten percent flash sale. -/
def samplePromoFlash : Promotion :=
  { id := 11, name := "flash", type := "flash_sale", discount_type := "percentage",
    discount_value := 10, rules := none, priority := 5, starts_at := none,
    ends_at := none, is_active := true }

/-- An active five percent discount on category 3. -/
def samplePromoCat : Promotion :=
  { id := 12, name := "cat", type := "category_discount",
    discount_type := "percentage", discount_value := 5,
    rules := some ⟨some 3, none, none, none, none⟩,
    priority := 1, starts_at := none, ends_at := none, is_active := true }

/-- A category promotion with a NULL rules payload, missing its categoryId. -/
def samplePromoBroken : Promotion :=
  { id := 13, name := "broken", type := "category_discount",
    discount_type := "percentage", discount_value := 5, rules := none,
    priority := 0, starts_at := none, ends_at := none, is_active := true }

/-- A buy 2 get 1 promotion on product 7. -/
def samplePromoBxgy : Promotion :=
  { id := 14, name := "bxgy", type := "buy_x_get_y", discount_type := "",
    discount_value := 0,
    rules := some ⟨none, some 7, some 2, some 1, none⟩,
    priority := 0, starts_at := none, ends_at := none, is_active := true }

/-- A cart holding four units of product 7 at price 3. -/
def sampleCartBxgy : List CartItem :=
  [{ productId := 7, categoryId := 3, price := 3, quantity := 4 }]

/-! ## Characterization of the evaluator loop -/

/-- Positive part of a rational, as applied by the loop to each discount. -/
def posPart (d : ℚ) : ℚ := if 0 < d then d else 0

lemma posPart_of_nonneg {d : ℚ} (h : 0 ≤ d) : posPart d = d := by
  unfold posPart
  rcases lt_or_eq_of_le h with h | h
  · simp [h]
  · simp [← h]

lemma foldl_promoStep (cartItems : List CartItem) :
    ∀ (l : List Promotion) (a : ℚ) (s : List AppliedPromo),
      List.foldl (promoStep cartItems) (a, s) l
        = (a + (l.map (fun p => posPart (calculatePromoDiscount p cartItems))).sum,
           s ++ (l.filter
              (fun p => decide (0 < calculatePromoDiscount p cartItems))).map
              (mkApplied cartItems))
  | [], a, s => by simp
  | p :: l, a, s => by
    rw [List.foldl_cons]
    by_cases hd : 0 < calculatePromoDiscount p cartItems
    · rw [show promoStep cartItems (a, s) p
          = (a + calculatePromoDiscount p cartItems, s ++ [mkApplied cartItems p]) by
            simp [promoStep, hd]]
      rw [foldl_promoStep cartItems l]
      simp [hd, posPart_of_nonneg (le_of_lt hd), add_assoc]
    · rw [show promoStep cartItems (a, s) p = (a, s) by simp [promoStep, hd]]
      rw [foldl_promoStep cartItems l]
      have : posPart (calculatePromoDiscount p cartItems) = 0 := by
        simp [posPart, hd]
      simp [hd, this]

lemma applyPromotionsCore_totalDiscount (promos : List Promotion)
    (cartItems : List CartItem) :
    (applyPromotionsCore promos cartItems).totalDiscount
      = (promos.map (fun p => posPart (calculatePromoDiscount p cartItems))).sum := by
  unfold applyPromotionsCore
  rw [foldl_promoStep]
  simp

lemma applyPromotionsCore_applied (promos : List Promotion)
    (cartItems : List CartItem) :
    (applyPromotionsCore promos cartItems).appliedPromotions
      = (promos.filter
          (fun p => decide (0 < calculatePromoDiscount p cartItems))).map
          (mkApplied cartItems) := by
  unfold applyPromotionsCore
  rw [foldl_promoStep]
  simp

/-! ## Nonnegativity of computed discounts -/

lemma foldl_subtotal_nonneg :
    ∀ (l : List CartItem) (a : ℚ), 0 ≤ a → (∀ i ∈ l, 0 ≤ i.price) →
      0 ≤ l.foldl (fun sum item => sum + item.price * (item.quantity : ℚ)) a
  | [], a, ha, _ => ha
  | i :: l, a, ha, h => by
    rw [List.foldl_cons]
    refine foldl_subtotal_nonneg l _ ?_ (fun j hj => h j (List.mem_cons_of_mem _ hj))
    have hi : 0 ≤ i.price := h i (List.mem_cons_self _ _)
    positivity

lemma cartSubtotal_nonneg (l : List CartItem) (h : ∀ i ∈ l, 0 ≤ i.price) :
    0 ≤ cartSubtotal l :=
  foldl_subtotal_nonneg l 0 le_rfl h

lemma calculatePromoDiscount_nonneg (promo : Promotion) (cartItems : List CartItem)
    (hprice : ∀ i ∈ cartItems, 0 ≤ i.price) (hval : 0 ≤ promo.discount_value) :
    0 ≤ calculatePromoDiscount promo cartItems := by
  have hct : 0 ≤ cartSubtotal cartItems := cartSubtotal_nonneg _ hprice
  have hdv : 0 ≤ promo.discount_value / 100 := by positivity
  unfold calculatePromoDiscount
  split
  · -- category_discount
    rcases h : jsIdOf ((promo.rules.getD emptyRules).categoryId) with _ | cid
    · simp [h]
    · simp only [h]
      have hcat : 0 ≤ (cartItems.filter
          (fun item => item.categoryId == cid)).foldl
          (fun sum item => sum + item.price * (item.quantity : ℚ)) 0 := by
        refine foldl_subtotal_nonneg _ 0 le_rfl (fun i hi => ?_)
        exact hprice i (List.mem_of_mem_filter hi)
      split_ifs
      · positivity
      · exact le_min hval hcat
      · exact le_rfl
  · -- buy_x_get_y
    rcases h : jsIdOf ((promo.rules.getD emptyRules).productId) with _ | pid
    · simp [h]
    · simp only [h]
      rcases hf : cartItems.find? (fun item => item.productId == pid) with _ | item
      · simp [hf]
      · simp only [hf]
        have : 0 ≤ item.price := hprice item (List.mem_of_find?_eq_some hf)
        positivity
  · -- flash_sale
    split_ifs
    · positivity
    · exact le_min hval hct
    · exact le_rfl
  · -- min_purchase
    dsimp only
    split_ifs
    · exact le_rfl
    · positivity
    · exact hval
    · exact le_rfl
  · -- unknown type
    exact le_rfl

/-! ## Characterization of the validator checks -/

lemma notYetActiveB_iff (c : Coupon) (now : Int) :
    notYetActiveB c now = true ↔ ∃ t, c.valid_from = some t ∧ now < t := by
  unfold notYetActiveB
  rcases h : c.valid_from with _ | t <;> simp [h]

lemma expiredB_iff (c : Coupon) (now : Int) :
    expiredB c now = true ↔ ∃ t, c.valid_to = some t ∧ t < now := by
  unfold expiredB
  rcases h : c.valid_to with _ | t <;> simp [h]

lemma exhaustedB_iff (c : Coupon) :
    exhaustedB c = true ↔ ∃ l, c.usage_limit = some l ∧ l ≠ 0 ∧ l ≤ c.usage_count := by
  unfold exhaustedB
  rcases h : c.usage_limit with _ | l <;> simp [h]

lemma belowMinB_iff (c : Coupon) (cartTotal : ℚ) :
    belowMinB c cartTotal = true ↔ ∃ m, c.min_purchase_amount = some m ∧ cartTotal < m := by
  unfold belowMinB
  rcases h : c.min_purchase_amount with _ | m <;> simp [h]

lemma perUserExceededB_some_iff (db : DB) (c : Coupon) (u : Nat) :
    perUserExceededB db c (some u) = true
      ↔ ∃ lim, c.usage_limit_per_user = some lim ∧ lim ≠ 0
          ∧ lim ≤ countUserUsage db c.id u := by
  unfold perUserExceededB
  rcases h : c.usage_limit_per_user with _ | lim <;> simp [h]

lemma perUserExceededB_none (db : DB) (c : Coupon) :
    perUserExceededB db c none = false := rfl

lemma validateFound_eq_notYetActive_iff (db : DB) (c : Coupon) (now : Int)
    (userId : Option Nat) (cartTotal : ℚ) :
    validateFound db c now userId cartTotal = .error .NotYetActive
      ↔ notYetActiveB c now = true := by
  unfold validateFound
  split_ifs <;> simp_all

lemma validateFound_eq_expired_iff (db : DB) (c : Coupon) (now : Int)
    (userId : Option Nat) (cartTotal : ℚ) :
    validateFound db c now userId cartTotal = .error .Expired
      ↔ (notYetActiveB c now = false ∧ expiredB c now = true) := by
  unfold validateFound
  split_ifs <;> simp_all

lemma validateFound_eq_exhausted_iff (db : DB) (c : Coupon) (now : Int)
    (userId : Option Nat) (cartTotal : ℚ) :
    validateFound db c now userId cartTotal = .error .Exhausted
      ↔ (notYetActiveB c now = false ∧ expiredB c now = false
          ∧ exhaustedB c = true) := by
  unfold validateFound
  split_ifs <;> simp_all

lemma validateFound_eq_perUser_iff (db : DB) (c : Coupon) (now : Int)
    (userId : Option Nat) (cartTotal : ℚ) :
    validateFound db c now userId cartTotal = .error .PerUserLimitReached
      ↔ (notYetActiveB c now = false ∧ expiredB c now = false
          ∧ exhaustedB c = false ∧ belowMinB c cartTotal = false
          ∧ perUserExceededB db c userId = true) := by
  unfold validateFound
  split_ifs <;> simp_all

lemma validateFound_ok_inv (db : DB) (c : Coupon) (now : Int)
    (userId : Option Nat) (cartTotal : ℚ) (r : ValidationOk)
    (hok : validateFound db c now userId cartTotal = .ok r) :
    r = { couponId := c.id, code := c.code, description := c.description,
          discountType := c.discount_type, discountValue := c.discount_value,
          discountAmount := couponDiscountAmount c cartTotal,
          freeShipping := c.discount_type = "free_shipping" } := by
  unfold validateFound at hok
  split_ifs at hok
  simp_all

/-! ## Claim C6: temporal validity checks -/

/-- C6 counterexample: a coupon whose validTo is already past (validTo = 1,
now = 5) but whose validFrom is still in the future fails with NotYetActive,
not Expired, so a coupon past validTo does not always fail with Expired
regardless of its other fields, and Expired is not returned exactly when
now is past validTo. -/
theorem validateFound_temporal_order_cex :
    sampleCouponC6.valid_to = some 1 ∧ (1 : Int) < 5
    ∧ validateFound sampleDbEmpty sampleCouponC6 5 none 100 = .error .NotYetActive
    ∧ (Except.error CouponError.NotYetActive : Except CouponError ValidationOk)
        ≠ .error .Expired :=
  ⟨rfl, by decide, rfl, by simp⟩

/-- C6 (amended): for a found active coupon, NotYetActive is returned exactly
when now is strictly before a set validFrom; Expired is returned exactly when
now is strictly past a set validTo and the coupon is not also not yet active,
since the NotYetActive check runs first; both boundary instants are valid;
and a coupon past validTo always fails, with Expired unless its validFrom is
also in the future, in which case with NotYetActive. -/
theorem validateFound_temporal_checks (db : DB) (c : Coupon) (now : Int)
    (userId : Option Nat) (cartTotal : ℚ) :
    (validateFound db c now userId cartTotal = .error .NotYetActive
        ↔ ∃ t, c.valid_from = some t ∧ now < t)
    ∧ (validateFound db c now userId cartTotal = .error .Expired
        ↔ ((∃ t, c.valid_to = some t ∧ t < now)
            ∧ ¬∃ t, c.valid_from = some t ∧ now < t))
    ∧ (c.valid_from = some now →
        validateFound db c now userId cartTotal ≠ .error .NotYetActive)
    ∧ (c.valid_to = some now →
        validateFound db c now userId cartTotal ≠ .error .Expired)
    ∧ ((∃ t, c.valid_to = some t ∧ t < now) →
        validateFound db c now userId cartTotal = .error .Expired
          ∨ validateFound db c now userId cartTotal = .error .NotYetActive) := by
  have h1 := validateFound_eq_notYetActive_iff db c now userId cartTotal
  have h2 := validateFound_eq_expired_iff db c now userId cartTotal
  have h3 := notYetActiveB_iff c now
  refine ⟨by rw [h1, h3], ?_, ?_, ?_, ?_⟩
  · rw [h2, expiredB_iff]
    constructor
    · rintro ⟨hf, he⟩
      exact ⟨he, fun hx => by simp [h3.mpr hx] at hf⟩
    · rintro ⟨he, hn⟩
      refine ⟨?_, he⟩
      cases hb : notYetActiveB c now
      · rfl
      · exact absurd (h3.mp hb) hn
  · intro hvf hcon
    rcases h3.mp (h1.mp hcon) with ⟨t, ht, hlt⟩
    rw [hvf] at ht
    cases ht
    exact lt_irrefl now hlt
  · intro hvt hcon
    rcases (expiredB_iff c now).mp (h2.mp hcon).2 with ⟨t, ht, hlt⟩
    rw [hvt] at ht
    cases ht
    exact lt_irrefl now hlt
  · intro hex
    cases hb : notYetActiveB c now
    · exact Or.inl (h2.mpr ⟨hb, (expiredB_iff c now).mpr hex⟩)
    · exact Or.inr (h1.mpr hb)

/-- C6 witness: the past-validTo implication of the amended theorem applied
to a concrete coupon expired at time 3 with now = 7. -/
theorem validateFound_temporal_checks_witness :
    validateFound sampleDbEmpty sampleCouponExp 7 none 50 = .error .Expired
      ∨ validateFound sampleDbEmpty sampleCouponExp 7 none 50 = .error .NotYetActive :=
  (validateFound_temporal_checks sampleDbEmpty sampleCouponExp 7 none 50).2.2.2.2
    ⟨3, rfl, by decide⟩

/-! ## Claim C7: global exhaustion check -/

/-- C7 counterexample: an expired coupon whose usageCount equals its
usageLimit fails with Expired, not Exhausted, so a coupon with
usageCount = usageLimit does not always fail with Exhausted and the
Exhausted condition is not exact as stated. -/
theorem validateFound_exhausted_order_cex :
    sampleCouponC7.usage_limit = some sampleCouponC7.usage_count
    ∧ validateFound sampleDbEmpty sampleCouponC7 5 none 100 = .error .Expired
    ∧ (Except.error CouponError.Expired : Except CouponError ValidationOk)
        ≠ .error .Exhausted :=
  ⟨rfl, rfl, by simp⟩

/-- C7 (amended): for a found active coupon, Exhausted is returned exactly
when the coupon is temporally valid (the temporal checks run first), its
usageLimit is set to a nonzero value and usageCount has reached it; a
temporally valid coupon with usageCount = usageLimit always fails with
Exhausted; a coupon with no usageLimit never fails with Exhausted. -/
theorem validateFound_exhausted_check (db : DB) (c : Coupon) (now : Int)
    (userId : Option Nat) (cartTotal : ℚ) :
    (validateFound db c now userId cartTotal = .error .Exhausted
        ↔ (notYetActiveB c now = false ∧ expiredB c now = false
            ∧ ∃ l, c.usage_limit = some l ∧ l ≠ 0 ∧ l ≤ c.usage_count))
    ∧ (c.usage_limit = none →
        validateFound db c now userId cartTotal ≠ .error .Exhausted)
    ∧ (∀ l, notYetActiveB c now = false → expiredB c now = false →
        c.usage_limit = some l → l ≠ 0 → c.usage_count = l →
        validateFound db c now userId cartTotal = .error .Exhausted) := by
  have h1 := validateFound_eq_exhausted_iff db c now userId cartTotal
  have h2 := exhaustedB_iff c
  refine ⟨?_, ?_, ?_⟩
  · rw [h1]
    constructor
    · rintro ⟨ha, hb, hc⟩
      exact ⟨ha, hb, h2.mp hc⟩
    · rintro ⟨ha, hb, hc⟩
      exact ⟨ha, hb, h2.mpr hc⟩
  · intro hnone hcon
    rcases h2.mp (h1.mp hcon).2.2 with ⟨l, hl, _⟩
    rw [hnone] at hl
    cases hl
  · intro l ha hb hl hne hcount
    exact h1.mpr ⟨ha, hb, h2.mpr ⟨l, hl, hne, by rw [hcount]⟩⟩

/-- C7 witness: the always-Exhausted implication of the amended theorem
applied to a temporally unconstrained coupon at its usage limit. -/
theorem validateFound_exhausted_check_witness :
    validateFound sampleDbEmpty sampleCouponExh 5 none 100 = .error .Exhausted :=
  (validateFound_exhausted_check sampleDbEmpty sampleCouponExh 5 none 100).2.2
    2 rfl rfl rfl (by decide) rfl

/-! ## Claim C8: per-user limit check -/

/-- C8 counterexample: an expired coupon with usageLimitPerUser = 1 and a
user who already has one usage row fails with Expired, not
PerUserLimitReached, so the per-user failure is not exact as stated. -/
theorem validateFound_per_user_order_cex :
    sampleCouponC8.usage_limit_per_user = some 1
    ∧ countUserUsage sampleUsageDb sampleCouponC8.id 42 = 1
    ∧ validateFound sampleUsageDb sampleCouponC8 5 (some 42) 100 = .error .Expired
    ∧ (Except.error CouponError.Expired : Except CouponError ValidationOk)
        ≠ .error .PerUserLimitReached :=
  ⟨rfl, rfl, rfl, by simp⟩

/-- C8 (amended): for a found active coupon and a supplied userId,
PerUserLimitReached is returned exactly when all earlier checks pass (the
checks run in order) and the per-user limit is set to a nonzero value the
prior usage count of the user has reached, regardless of the global usage
counter; with no userId the per-user check is skipped entirely: the result
does not depend on the snapshot at all and is never PerUserLimitReached. -/
theorem validateFound_per_user_check (db : DB) (c : Coupon) (now : Int)
    (cartTotal : ℚ) :
    (∀ u, validateFound db c now (some u) cartTotal = .error .PerUserLimitReached
        ↔ (notYetActiveB c now = false ∧ expiredB c now = false
            ∧ exhaustedB c = false ∧ belowMinB c cartTotal = false
            ∧ ∃ lim, c.usage_limit_per_user = some lim ∧ lim ≠ 0
                ∧ lim ≤ countUserUsage db c.id u))
    ∧ (∀ db' : DB, validateFound db c now none cartTotal
        = validateFound db' c now none cartTotal)
    ∧ validateFound db c now none cartTotal ≠ .error .PerUserLimitReached := by
  refine ⟨?_, ?_, ?_⟩
  · intro u
    rw [validateFound_eq_perUser_iff, perUserExceededB_some_iff]
  · intro db'
    unfold validateFound
    simp [perUserExceededB]
  · intro hcon
    have h := (validateFound_eq_perUser_iff db c now none cartTotal).mp hcon
    rw [perUserExceededB_none] at h
    exact Bool.false_ne_true h.2.2.2.2

/-- C8 witness: the exact-condition direction of the amended theorem applied
to a coupon with per-user limit 1 and a user holding one usage row. -/
theorem validateFound_per_user_check_witness :
    validateFound sampleUsageDb sampleCouponPU 5 (some 42) 100
      = .error .PerUserLimitReached :=
  ((validateFound_per_user_check sampleUsageDb sampleCouponPU 5 100).1 42).mpr
    ⟨rfl, rfl, rfl, rfl, 1, rfl, by decide, by decide⟩

/-! ## Claim C1: coupon discount computation -/

lemma couponDiscountAmount_eq_spec (c : Coupon) (cartTotal : ℚ) :
    couponDiscountAmount c cartTotal = specDiscountAmount c cartTotal := by
  unfold couponDiscountAmount specDiscountAmount
  split_ifs <;> rfl

/-- C1: for every found active coupon accepted by the validator, the
returned discountAmount equals the type-specific reference computation of
the spec: percentage is cartTotal times discountValue over 100 clamped to a
set maxDiscountAmount (hence never above that cap), fixed_amount is the
minimum of discountValue and cartTotal (hence never above cartTotal), and
free_shipping yields amount 0 with the freeShipping flag set. -/
theorem validateFound_discount_formula (db : DB) (c : Coupon) (now : Int)
    (userId : Option Nat) (cartTotal : ℚ) (r : ValidationOk)
    (hok : validateFound db c now userId cartTotal = .ok r) :
    r.discountAmount = specDiscountAmount c cartTotal
    ∧ (∀ m, c.discount_type = "percentage" → c.max_discount_amount = some m →
        r.discountAmount ≤ m)
    ∧ (c.discount_type = "fixed_amount" → r.discountAmount ≤ cartTotal)
    ∧ (c.discount_type = "free_shipping" →
        r.discountAmount = 0 ∧ r.freeShipping = true) := by
  have hr := validateFound_ok_inv db c now userId cartTotal r hok
  subst hr
  refine ⟨couponDiscountAmount_eq_spec c cartTotal, ?_, ?_, ?_⟩
  · intro m hp hm
    show couponDiscountAmount c cartTotal ≤ m
    rw [couponDiscountAmount_eq_spec]
    unfold specDiscountAmount
    simp [hp, hm]
  · intro hf
    show couponDiscountAmount c cartTotal ≤ cartTotal
    rw [couponDiscountAmount_eq_spec]
    unfold specDiscountAmount
    simp [hf]
  · intro hf
    constructor
    · show couponDiscountAmount c cartTotal = 0
      simp [couponDiscountAmount, hf]
    · simp [hf]

/-- C1 witness: the ten percent coupon of the spec scenario on a cart of
100 is accepted with discountAmount 10, matching the reference
computation. -/
theorem validateFound_discount_formula_witness :
    sampleResult.discountAmount = specDiscountAmount sampleCouponBase 100
    ∧ sampleResult.discountAmount = 10 :=
  ⟨(validateFound_discount_formula sampleDbEmpty sampleCouponBase 5 none 100
      sampleResult
      (by
        norm_num [validateFound, notYetActiveB, expiredB, exhaustedB, belowMinB,
          perUserExceededB, couponDiscountAmount, sampleCouponBase, sampleResult]
        decide)).1,
   rfl⟩

/-! ## Claim C5: usage recording -/

/-- C5 counterexample: with the store failing the INSERT after the UPDATE
succeeded, the call leaves the usage counter incremented from 0 to 1 with
no CouponUsage row inserted, so the two effects are not one atomic unit. -/
theorem recordCouponUsage_not_atomic :
    (recordCouponUsage sampleCouponDb false true 1 none 9 10).2.coupons.map
        Coupon.usage_count = [1]
    ∧ (recordCouponUsage sampleCouponDb false true 1 none 9 10).2.coupon_usage = []
    ∧ (recordCouponUsage sampleCouponDb false true 1 none 9 10).1
        = .error "insert failed" :=
  ⟨rfl, rfl, rfl⟩

/-- C5 (amended): recordCouponUsage issues the counter increment and the
usage-row insert as two separate statements with no surrounding
transaction: when both succeed it increments the usageCount of the coupon by 1
and appends exactly one CouponUsage row; when the UPDATE fails it throws
and leaves the store untouched; when the INSERT fails after the UPDATE the
error is thrown to the caller, with no automatic retry, but the counter
stays incremented with no usage row recorded. -/
theorem recordCouponUsage_two_effects (db : DB) (couponId : Nat)
    (userId : Option Nat) (orderId : Nat) (amount : ℚ) :
    ((recordCouponUsage db false false couponId userId orderId amount).1 = .ok ()
      ∧ (recordCouponUsage db false false couponId userId orderId amount).2.coupons.map
            Coupon.usage_count
          = db.coupons.map
              (fun c => if c.id == couponId then c.usage_count + 1 else c.usage_count)
      ∧ (recordCouponUsage db false false couponId userId orderId amount).2.coupon_usage
          = db.coupon_usage ++ [⟨couponId, userId, orderId, amount⟩])
    ∧ (∀ failInsert,
        recordCouponUsage db true failInsert couponId userId orderId amount
          = (.error "update failed", db))
    ∧ ((recordCouponUsage db false true couponId userId orderId amount).1
          = .error "insert failed"
      ∧ (recordCouponUsage db false true couponId userId orderId amount).2.coupons.map
            Coupon.usage_count
          = db.coupons.map
              (fun c => if c.id == couponId then c.usage_count + 1 else c.usage_count)
      ∧ (recordCouponUsage db false true couponId userId orderId amount).2.coupon_usage
          = db.coupon_usage) := by
  refine ⟨⟨rfl, ?_, rfl⟩, fun _ => rfl, rfl, ?_, rfl⟩ <;>
    simp [recordCouponUsage, insertCouponUsage, incrementUsageCount,
      List.map_map, Function.comp, bumpUsageRow, apply_ite]

/-! ## Claim C9: the validator and evaluator never mutate state -/

/-- C9: validateCoupon and the promotion evaluator return the store
snapshot unchanged on every input, valid or not, while recordCouponUsage
is the operation that increments usageCount, by exactly 1 on the coupon
with the given id. -/
theorem engine_frame_conditions (db : DB) (now : Int) (code : String)
    (userId : Option Nat) (cartTotal : ℚ) (cartItems : List CartItem)
    (couponId : Nat) (uid : Option Nat) (orderId : Nat) (amount : ℚ) :
    (validateCoupon db now code userId cartTotal).2 = db
    ∧ (applyPromotionsRun db now cartItems).2 = db
    ∧ (recordCouponUsage db false false couponId uid orderId amount).2.coupons.map
          Coupon.usage_count
        = db.coupons.map
            (fun c => if c.id == couponId then c.usage_count + 1 else c.usage_count) := by
  refine ⟨?_, rfl, ?_⟩
  · unfold validateCoupon
    cases findCoupon db code <;> rfl
  · simp [recordCouponUsage, insertCouponUsage, incrementUsageCount,
      List.map_map, Function.comp, bumpUsageRow, apply_ite]

/-! ## Claim C10: applied promotions are exactly the positive ones -/

/-- C10: the appliedPromotions list returned by the evaluator equals the
fetched active promotions with strictly positive computed discount, each
reported with its discount; active promotions whose computed discount is
zero (unknown type, missing rule field, no matching items) are omitted
rather than reported with discount 0. -/
theorem appliedPromotions_positive_filter (db : DB) (now : Int)
    (cartItems : List CartItem) :
    (applyPromotionsRun db now cartItems).1.appliedPromotions
      = ((activePromotions db now).filter
          (fun p => decide (0 < calculatePromoDiscount p cartItems))).map
          (mkApplied cartItems) := by
  show (applyPromotionsCore (activePromotions db now) cartItems).appliedPromotions = _
  exact applyPromotionsCore_applied _ _

/-! ## Claims C2, C3, C4: the promotion evaluator -/

lemma applyPromotionsCore_mk (l : List Promotion) (cartItems : List CartItem) :
    applyPromotionsCore l cartItems
      = ⟨(l.map fun p => posPart (calculatePromoDiscount p cartItems)).sum,
         (l.filter fun p => decide (0 < calculatePromoDiscount p cartItems)).map
           (mkApplied cartItems)⟩ := by
  unfold applyPromotionsCore
  rw [foldl_promoStep]
  simp

lemma find?_of_filter_singleton {p : CartItem → Bool} :
    ∀ (l : List CartItem) (a : CartItem), l.filter p = [a] → l.find? p = some a
  | [], a, h => by simp at h
  | x :: l, a, h => by
    by_cases hx : p x
    · rw [List.filter_cons_of_pos hx] at h
      injection h with h1 h2
      rw [List.find?_cons_of_pos _ hx, h1]
    · rw [List.filter_cons_of_neg hx] at h
      rw [List.find?_cons_of_neg _ hx]
      exact find?_of_filter_singleton l a h

/-- C2: the evaluator sums the discounts of the promotions, each computed
independently against the original cart (never compounded on a reduced
balance), so for promotions with nonnegative configured values the total
equals the plain sum of the individual discounts, and permuting the
evaluation order permutes only the appliedPromotions list while the
numeric totalDiscount is unchanged. -/
theorem applyPromotions_independent_sum_perm (cartItems : List CartItem)
    (promos promos' : List Promotion)
    (hperm : promos.Perm promos')
    (hprice : ∀ i ∈ cartItems, 0 ≤ i.price)
    (hval : ∀ p ∈ promos, 0 ≤ p.discount_value) :
    (applyPromotionsCore promos cartItems).totalDiscount
        = (promos.map (fun p => calculatePromoDiscount p cartItems)).sum
    ∧ (applyPromotionsCore promos cartItems).totalDiscount
        = (applyPromotionsCore promos' cartItems).totalDiscount
    ∧ (applyPromotionsCore promos cartItems).appliedPromotions.Perm
        (applyPromotionsCore promos' cartItems).appliedPromotions := by
  have hposmap : (promos.map fun p => posPart (calculatePromoDiscount p cartItems))
      = promos.map fun p => calculatePromoDiscount p cartItems :=
    List.map_congr_left fun p hp =>
      posPart_of_nonneg (calculatePromoDiscount_nonneg p cartItems hprice (hval p hp))
  refine ⟨?_, ?_, ?_⟩
  · rw [applyPromotionsCore_totalDiscount, hposmap]
  · rw [applyPromotionsCore_totalDiscount, applyPromotionsCore_totalDiscount]
    exact (hperm.map _).sum_eq
  · rw [applyPromotionsCore_applied, applyPromotionsCore_applied]
    exact (hperm.filter _).map _

/-- C2 witness: a ten percent flash sale stacked with a five percent
category discount on a one-item category-3 cart, evaluated in both orders. -/
theorem applyPromotions_independent_sum_perm_witness :
    (applyPromotionsCore [samplePromoFlash, samplePromoCat] sampleCart).totalDiscount
        = ([samplePromoFlash, samplePromoCat].map
            (fun p => calculatePromoDiscount p sampleCart)).sum
    ∧ (applyPromotionsCore [samplePromoFlash, samplePromoCat] sampleCart).totalDiscount
        = (applyPromotionsCore [samplePromoCat, samplePromoFlash] sampleCart).totalDiscount
    ∧ (applyPromotionsCore [samplePromoFlash, samplePromoCat]
          sampleCart).appliedPromotions.Perm
        (applyPromotionsCore [samplePromoCat, samplePromoFlash]
          sampleCart).appliedPromotions :=
  applyPromotions_independent_sum_perm sampleCart
    [samplePromoFlash, samplePromoCat] [samplePromoCat, samplePromoFlash]
    (List.Perm.swap _ _ _) (by decide) (by decide)

/-- C3: for a buy_x_get_y promotion whose rules name a product with exactly
one matching cart item, the contributed discount is
floor(quantity / buyQuantity) * getQuantity * price; below buyQuantity it
is exactly 0, and at quantity = 2 * buyQuantity it is exactly
2 * getQuantity * price. -/
theorem calculatePromoDiscount_buyXgetY (promo : Promotion)
    (cartItems : List CartItem) (ru : PromoRules) (pid b g : Nat) (item : CartItem)
    (htype : promo.type = "buy_x_get_y")
    (hru : promo.rules = some ru)
    (hpid : ru.productId = some pid) (hpid0 : pid ≠ 0)
    (hb : ru.buyQuantity = some b) (hb0 : b ≠ 0)
    (hg : ru.getQuantity = some g) (hg0 : g ≠ 0)
    (hitem : cartItems.filter (fun i => i.productId == pid) = [item]) :
    calculatePromoDiscount promo cartItems
        = item.price * ((item.quantity / b * g : Nat) : ℚ)
    ∧ (item.quantity < b → calculatePromoDiscount promo cartItems = 0)
    ∧ (item.quantity = 2 * b → calculatePromoDiscount promo cartItems
        = item.price * ((2 * g : Nat) : ℚ)) := by
  have hfind : cartItems.find? (fun i => i.productId == pid) = some item :=
    find?_of_filter_singleton cartItems item hitem
  have hmain : calculatePromoDiscount promo cartItems
      = item.price * ((item.quantity / b * g : Nat) : ℚ) := by
    obtain ⟨pn, rfl⟩ := Nat.exists_eq_succ_of_ne_zero hpid0
    obtain ⟨bn, rfl⟩ := Nat.exists_eq_succ_of_ne_zero hb0
    obtain ⟨gn, rfl⟩ := Nat.exists_eq_succ_of_ne_zero hg0
    simp [calculatePromoDiscount, htype, hru, hpid, hb, hg, jsOrNat, jsIdOf, hfind]
  refine ⟨hmain, ?_, ?_⟩
  · intro hlt
    rw [hmain, Nat.div_eq_of_lt hlt]
    simp
  · intro heq
    rw [hmain, heq, Nat.mul_div_cancel _ (Nat.pos_of_ne_zero hb0)]

/-- C3 witness: buy 2 get 1 on a cart holding four units of product 7 at
price 3 contributes floor(4 / 2) * 1 * 3. -/
theorem calculatePromoDiscount_buyXgetY_witness :
    calculatePromoDiscount samplePromoBxgy sampleCartBxgy
      = (⟨7, 3, 3, 4⟩ : CartItem).price * (((4 : Nat) / 2 * 1 : Nat) : ℚ) :=
  (calculatePromoDiscount_buyXgetY samplePromoBxgy sampleCartBxgy
    ⟨none, some 7, some 2, some 1, none⟩ 7 2 1 ⟨7, 3, 3, 4⟩ rfl rfl rfl
    (by decide) rfl (by decide) rfl (by decide) rfl).1

/-- C4: the evaluator never fails: a store error reaching its catch yields
the zero result instead of an exception, a successful fetch runs the plain
loop, a promotion whose rules payload is malformed or lacks its required
id field contributes exactly 0, and a promotion contributing 0 can be
dropped from the evaluated list without changing the result, so the
discounts of the remaining promotions are still summed. -/
theorem applyPromotions_fail_open (cartItems : List CartItem) :
    (∀ e, applyPromotions (.error e) cartItems
        = { totalDiscount := 0, appliedPromotions := [] })
    ∧ (∀ promos, applyPromotions (.ok promos) cartItems
        = applyPromotionsCore promos cartItems)
    ∧ (∀ promo : Promotion, promo.type = "category_discount" →
        (promo.rules.getD emptyRules).categoryId = none →
        calculatePromoDiscount promo cartItems = 0)
    ∧ (∀ promo : Promotion, promo.type = "buy_x_get_y" →
        (promo.rules.getD emptyRules).productId = none →
        calculatePromoDiscount promo cartItems = 0)
    ∧ (∀ (l₁ l₂ : List Promotion) (promo : Promotion),
        calculatePromoDiscount promo cartItems = 0 →
        applyPromotionsCore (l₁ ++ promo :: l₂) cartItems
          = applyPromotionsCore (l₁ ++ l₂) cartItems) := by
  refine ⟨fun e => rfl, fun promos => rfl, ?_, ?_, ?_⟩
  · intro promo ht hc
    simp [calculatePromoDiscount, ht, hc, jsIdOf]
  · intro promo ht hp
    simp [calculatePromoDiscount, ht, hp, jsIdOf]
  · intro l₁ l₂ promo h0
    rw [applyPromotionsCore_mk, applyPromotionsCore_mk]
    have hpp : posPart (calculatePromoDiscount promo cartItems) = 0 := by
      simp [posPart, h0]
    have hdd : decide (0 < calculatePromoDiscount promo cartItems) = false := by
      simp [h0]
    simp [List.map_append, List.sum_append, List.filter_append, hpp, hdd,
      List.filter_cons, PromoResult.mk.injEq]

/-- C4 witness: a category promotion with a NULL rules payload contributes
0 and its presence does not change the evaluation of a flash sale next to
it. -/
theorem applyPromotions_fail_open_witness :
    calculatePromoDiscount samplePromoBroken sampleCart = 0
    ∧ applyPromotionsCore [samplePromoFlash, samplePromoBroken] sampleCart
        = applyPromotionsCore [samplePromoFlash] sampleCart :=
  ⟨(applyPromotions_fail_open sampleCart).2.2.1 samplePromoBroken rfl rfl,
   (applyPromotions_fail_open sampleCart).2.2.2.2 [samplePromoFlash] []
     samplePromoBroken
     ((applyPromotions_fail_open sampleCart).2.2.1 samplePromoBroken rfl rfl)⟩

end CafeStockholm
